import Mathlib

/-
Shallow embedding of `src/data_help/modelling.py` (the single source file of
the `datahelp` repository).

The module wraps scikit-learn / numpy / matplotlib / seaborn calls.  Those
libraries are external collaborators (the spec declares them out of scope), so
they are modelled as oracles gathered in an environment record `SkEnv`; the
module's own observable behaviour is modelled as a list of `Effect` events
(library calls, console prints, plot commands, the in-place `fit` mutation)
together with an optional raised error.  Python exceptions are modelled by
`DhError`; a raised error ends the run, and the effects emitted before the
raise are kept, as in Python.

Numeric data is modelled over `ℚ` (the code does no float-specific
manipulation of its own; all numerics are delegated to the libraries).
-/

namespace DataHelp

/-- A 2-D numeric feature table: rows are samples, columns are features. -/
abbrev Features := List (List ℚ)

/-- A 1-D label sequence. -/
abbrev Labels := List ℚ

/-- The four scikit-learn metric functions the module passes to
`cross_val_score` as its `scoring` argument (lines 56-61 of the source). -/
inductive ScorerFn where
  | accuracy_score
  | f1_score
  | precision_score
  | recall_score
  deriving DecidableEq, Repr

/-- Python exceptions that the module (or the Python runtime evaluating it)
can raise. -/
inductive DhError where
  /-- `raise ValueError(msg)` in the module body. -/
  | valueError (msg : String)
  /-- Python NameError: a referenced name is not defined in any scope. -/
  | nameError (missing : String)
  /-- Python TypeError, e.g. a call missing a required positional argument. -/
  | typeError (msg : String)
  /-- Python AttributeError, e.g. calling `.fit` on `None`. -/
  | attributeError (attr : String)
  /-- An error raised inside a scikit-learn call. -/
  | sklearnError (msg : String)
  deriving DecidableEq, Repr

/-- A line printed to the console. -/
inductive PrintedLine where
  /-- The cross-validation line printing the metric name, the mean and the
  std, both numbers formatted with the given number of decimal places
  (`:.4f` in the source). -/
  | cvMetric (name : String) (mean std : ℚ) (decimals : Nat)
  /-- `print(classification_report(y_val, y_pred))`. -/
  | classificationReport (y_true y_pred : Labels)
  /-- `print(f"Confusion Matrix: ...")` built from `confusion_matrix(y_val, y_pred)`. -/
  | confusionMatrix (y_true y_pred : Labels)
  deriving DecidableEq, Repr

/-- A matplotlib / seaborn plotting command issued by the module. -/
inductive PlotCmd where
  /-- `plt.plot(fpr, tpr, ...)` with a label carrying the AUC formatted to
  the given number of decimals (`:.2f` in the source). -/
  | rocCurve (fpr tpr : List ℚ) (auc : ℚ) (aucDecimals : Nat)
  /-- `plt.plot([0, 1], [0, 1], ...)`: the diagonal no-skill reference line. -/
  | diagonal
  | xlabel (s : String)
  | ylabel (s : String)
  | title (s : String)
  /-- `sns.barplot(x=features, y=importance, ...)` on the sorted table. -/
  | barplot (features : List String) (importance : List ℚ)
  /-- `ax.set_xticklabels(..., rotation=90)`. -/
  | xticksRotation (degrees : ℚ)
  deriving DecidableEq, Repr

/-- An observable event of a run of the module. -/
inductive Effect where
  /-- A `cross_val_score(estimator, X, y, scoring=scorer, cv=cv)` call. -/
  | crossValScore (x : Features) (y : Labels) (scoring : ScorerFn) (cv : Nat)
  /-- `estimator.fit(X_train, y_train)`: the in-place mutation of the
  caller's estimator. -/
  | fitEstimator
  /-- `estimator.predict(X_val)`. -/
  | predictCall
  /-- `estimator.predict_proba(X_val)`. -/
  | predictProbaCall
  /-- A `print(...)` call. -/
  | printLine (line : PrintedLine)
  /-- A plotting command. -/
  | plot (c : PlotCmd)
  deriving DecidableEq, Repr

/-- `true` exactly for plotting commands. -/
def Effect.isPlot : Effect → Bool
  | .plot _ => true
  | _ => false

/-- `true` exactly for the in-place estimator mutation (`fit`). -/
def Effect.isMutation : Effect → Bool
  | .fitEstimator => true
  | _ => false

/-- `true` exactly for console output. -/
def Effect.isPrint : Effect → Bool
  | .printLine _ => true
  | _ => false

/-- `true` exactly for the `cross_val_score` library call. -/
def Effect.isCvCall : Effect → Bool
  | .crossValScore _ _ _ _ => true
  | _ => false

/-- A Python estimator object, as the duck-typed capability bag this module
relies on: `predict`, optionally `predict_proba` (two probability columns for
a binary classifier; the source takes column 1), optionally the
`feature_importances_` attribute. -/
structure EstimatorObj where
  predict : Features → Labels
  predict_proba : Option (Features → List (ℚ × ℚ))
  feature_importances_ : Option (List ℚ)

/-- Oracles for the external libraries (scikit-learn, numpy): per-fold scores
returned by `cross_val_score`, numpy's `.mean()` and `.std()`, and
`roc_curve` / `roc_auc_score`. -/
structure SkEnv where
  cross_val_score : Features → Labels → ScorerFn → Nat → List ℚ
  npMean : List ℚ → ℚ
  npStd : List ℚ → ℚ
  roc_curve : Labels → List ℚ → List ℚ × List ℚ
  roc_auc_score : Labels → List ℚ → ℚ

/-- Arithmetic mean of a list of rationals (numpy `.mean()` semantics). -/
def listMean (xs : List ℚ) : ℚ := xs.sum / xs.length

/-- Population variance (numpy `.std()` uses `ddof=0`, so the printed std is
the square root of this). -/
def popVar (xs : List ℚ) : ℚ :=
  ((xs.map fun x => (x - listMean xs) ^ 2).sum) / xs.length

/-- `s` is the population standard deviation of `xs`. -/
def IsPopStd (s : ℚ) (xs : List ℚ) : Prop := 0 ≤ s ∧ s ^ 2 = popVar xs

/-- The fixed `scorers` list of the source (lines 56-61): metric display names
paired with the metric functions used as `scoring`. -/
def scorers : List (String × ScorerFn) :=
  [("Accuracy", ScorerFn.accuracy_score),
   ("F1-score", ScorerFn.f1_score),
   ("Precision", ScorerFn.precision_score),
   ("Recall", ScorerFn.recall_score)]

/-- Embedding of `train_classifier` (lines 19-83 of the source).  The four
null checks run first, in source order; then the `cross_validate` flag selects
the mode.  The result is the list of emitted effects together with the raised
error, if any. -/
def train_classifier (env : SkEnv)
    (X_train : Option Features) (y_train : Option Labels)
    (X_val : Option Features) (y_val : Option Labels)
    (estimator : Option EstimatorObj)
    (cross_validate : Bool) (cv : Nat) : List Effect × Option DhError :=
  match X_train with
  | none => ([], some (DhError.valueError "X_train is None"))
  | some Xt =>
  match y_train with
  | none => ([], some (DhError.valueError "y_train is None"))
  | some yt =>
  match X_val with
  | none => ([], some (DhError.valueError "X_val is None"))
  | some Xv =>
  match y_val with
  | none => ([], some (DhError.valueError "y_val is None"))
  | some yv =>
  if cross_validate then
    match estimator with
    | none =>
      -- the first cross_val_score call fails inside scikit-learn: the
      -- estimator is not checked by the module itself
      ([], some (DhError.sklearnError "cross_val_score: estimator is None"))
    | some _ =>
      (scorers.flatMap fun p =>
        [Effect.crossValScore Xt yt p.2 cv,
         Effect.printLine (PrintedLine.cvMetric p.1
           (env.npMean (env.cross_val_score Xt yt p.2 cv))
           (env.npStd (env.cross_val_score Xt yt p.2 cv)) 4)],
       none)
  else
    match estimator with
    | none =>
      -- `None.fit(...)`: AttributeError from the Python runtime
      ([], some (DhError.attributeError "fit"))
    | some est =>
      let y_pred := est.predict Xv
      let base := [Effect.fitEstimator, Effect.predictCall,
        Effect.printLine (PrintedLine.classificationReport yv y_pred),
        Effect.printLine (PrintedLine.confusionMatrix yv y_pred)]
      match est.predict_proba with
      | none => (base, none)
      | some pp =>
        let y_pred_proba := (pp Xv).map Prod.snd
        let fpr_tpr := env.roc_curve yv y_pred_proba
        let roc_auc := env.roc_auc_score yv y_pred_proba
        (base ++ [Effect.predictProbaCall,
          Effect.plot (PlotCmd.rocCurve fpr_tpr.1 fpr_tpr.2 roc_auc 2),
          Effect.plot PlotCmd.diagonal,
          Effect.plot (PlotCmd.xlabel "False Positive Rate"),
          Effect.plot (PlotCmd.ylabel "True Positive Rate"),
          Effect.plot (PlotCmd.title "Receiver Operating Characteristic Curve")],
         none)

/-- A Python value passed for the `col_name` parameter of
`feature_importance` (the code never reads it, see `feature_importance`). -/
inductive PyArg where
  | pyNone
  | pyStr (s : String)
  | pyList (xs : List String)
  deriving DecidableEq, Repr

/-- `True` iff the estimator argument satisfies
`hasattr(estimator, "feature_importances_")` (with `None` having no
attributes). -/
def hasFeatureImportances : Option EstimatorObj → Bool
  | none => false
  | some e => e.feature_importances_.isSome

/-- The module-level global bindings relevant to name resolution inside
`feature_importance`.  The body references the bare name `col_names`, which is
defined nowhere in the module, so this list does not bind it. -/
def moduleGlobals : List (String × PyArg) := []

/-- Python name resolution for a bare global name: a name not bound in the
module globals raises `NameError`. -/
def lookupGlobal (n : String) : Except DhError PyArg :=
  match moduleGlobals.find? (fun p => p.1 == n) with
  | some p => Except.ok p.2
  | none => Except.error (DhError.nameError n)

/-- `isinstance(v, list)`. -/
def PyArg.isList : PyArg → Bool
  | .pyList _ => true
  | _ => false

/-- `len(v)` for a list value (unused on non-lists along live paths). -/
def PyArg.listLen : PyArg → Nat
  | .pyList xs => xs.length
  | _ => 0

/-- The underlying Lean list of a `pyList` value. -/
def PyArg.asList : PyArg → List String
  | .pyList xs => xs
  | _ => []

/-- The figure/axes pair `feature_importance` would return: the bar data of
the rendered chart, its title, and the tick-label rotation. -/
structure FigAx where
  bar : List (String × ℚ)
  figTitle : String
  rotation : ℚ
  deriving DecidableEq, Repr

/-- Insert a row into a table already sorted descending by score, before the
first row of strictly smaller score (so equal scores keep their original
relative order). -/
def insertDesc (x : String × ℚ) : List (String × ℚ) → List (String × ℚ)
  | [] => [x]
  | y :: l => if y.2 < x.2 then x :: y :: l else y :: insertDesc x l

/-- `feats_imp.sort_values(by="importance", ascending=False)`: sort the
(name, score) table descending by score. -/
def sortValuesDesc : List (String × ℚ) → List (String × ℚ)
  | [] => []
  | x :: l => insertDesc x (sortValuesDesc l)

/-- Embedding of `feature_importance` (lines 85-120 of the source).  After
the `hasattr` check, the body evaluates `isinstance(col_names, list)`; Python
resolves the bare name `col_names` (the parameter is named `col_name`), which
is undefined, so every execution that passes the `hasattr` check raises
`NameError` there.  The continuation after that point is embedded faithfully
even though it is unreachable.  The `col_name` argument itself is never read
by the body. -/
def feature_importance (estimator : Option EstimatorObj) (col_name : PyArg) :
    List Effect × Except DhError FigAx :=
  if hasFeatureImportances estimator = false then
    ([], Except.error (DhError.valueError
      "The estimator does not have a feature_importances_ attribute."))
  else
    match lookupGlobal "col_names" with
    | Except.error e => ([], Except.error e)
    | Except.ok col_names =>
      match estimator with
      | none => ([], Except.error (DhError.attributeError "feature_importances_"))
      | some est =>
        match est.feature_importances_ with
        | none => ([], Except.error (DhError.attributeError "feature_importances_"))
        | some imps =>
          if col_names.isList = false ∨ col_names.listLen ≠ imps.length then
            ([], Except.error (DhError.valueError
              "The col_names argument should be a list of the same length as the feature importances."))
          else
            let feats_imp := (col_names.asList).zip imps
            let sorted := sortValuesDesc feats_imp
            ([Effect.plot (PlotCmd.barplot (sorted.map Prod.fst) (sorted.map Prod.snd)),
              Effect.plot (PlotCmd.xticksRotation 90),
              Effect.plot (PlotCmd.title "Feature importance plot")],
             Except.ok { bar := sorted, figTitle := "Feature importance plot",
                         rotation := 90 })

/-- `matplotlib.pyplot.switch_backend(newbackend)`: its single positional
parameter is required, so a zero-argument call (modelled by `none`) raises
`TypeError` from the Python call machinery before the function body runs. -/
def switch_backend (newbackend : Option String) : Except DhError String :=
  match newbackend with
  | none => Except.error (DhError.typeError
      "switch_backend missing 1 required positional argument: newbackend")
  | some b => Except.ok b

/-- Embedding of the module-level backend selection (lines 13-16 of the
source): on `platform.system() == "Darwin"` the source calls
`plt.switch_backend()` with no argument; on every other platform it calls
`plt.switch_backend("Agg")`.  The result is the backend in force after the
module body runs, or the error that aborts the import. -/
def moduleInit (osName : String) : Except DhError String :=
  if osName = "Darwin" then
    switch_backend none
  else
    switch_backend (some "Agg")

/-! ### Concrete fixtures used by witnesses and counterexample evaluations -/

/-- An estimator with neither `predict_proba` nor `feature_importances_`. -/
def estPlain : EstimatorObj :=
  { predict := fun _ => [], predict_proba := none, feature_importances_ := none }

/-- An estimator whose `feature_importances_` has two entries. -/
def estTwoImps : EstimatorObj :=
  { predict := fun _ => [], predict_proba := none,
    feature_importances_ := some [1/2, 3/10] }

/-- An estimator whose `feature_importances_` is `[0.1, 0.5, 0.4]`. -/
def estThreeImps : EstimatorObj :=
  { predict := fun _ => [], predict_proba := none,
    feature_importances_ := some [1/10, 1/2, 2/5] }

/-- A concrete library environment: every cross-validation returns the
per-fold scores `[1, 1]` (mean `1`, population standard deviation `0`). -/
def envW : SkEnv :=
  { cross_val_score := fun _ _ _ _ => [1, 1],
    npMean := fun xs => listMean xs,
    npStd := fun _ => 0,
    roc_curve := fun _ _ => ([], []),
    roc_auc_score := fun _ _ => 0 }

/-- A concrete training feature table. -/
def XtW : Features := [[0], [1]]

/-- A concrete label sequence. -/
def ytW : Labels := [0, 1]

/-! ### Claims -/

/-- Claim C5: for every call to `train_classifier` in which one of `X_train`,
`y_train`, `X_val`, `y_val` is null (the others valid), the call fails
immediately with the `InvalidArgument` (`ValueError`) error naming the
missing argument, emitting no effect (no fit, no prediction, no print). -/
theorem train_classifier_null_checks (env : SkEnv) (Xt : Features) (yt : Labels)
    (Xv : Features) (yv : Labels) (est : Option EstimatorObj) (cva : Bool) (cv : Nat) :
    train_classifier env none (some yt) (some Xv) (some yv) est cva cv
      = ([], some (DhError.valueError "X_train is None"))
    ∧ train_classifier env (some Xt) none (some Xv) (some yv) est cva cv
      = ([], some (DhError.valueError "y_train is None"))
    ∧ train_classifier env (some Xt) (some yt) none (some yv) est cva cv
      = ([], some (DhError.valueError "X_val is None"))
    ∧ train_classifier env (some Xt) (some yt) (some Xv) none est cva cv
      = ([], some (DhError.valueError "y_val is None")) :=
  ⟨rfl, rfl, rfl, rfl⟩

/-- Claim C9: the null checks run before the mode branch, so even with
`cross_validate = true` (which never uses the validation data) a null `X_val`
or `y_val` fails with the null-argument error, and no cross-validation effect
is emitted. -/
theorem train_classifier_cv_requires_val (env : SkEnv) (Xt : Features)
    (yt : Labels) (Xv : Features) (yv : Labels) (est : Option EstimatorObj) (cv : Nat) :
    train_classifier env (some Xt) (some yt) none (some yv) est true cv
      = ([], some (DhError.valueError "X_val is None"))
    ∧ train_classifier env (some Xt) (some yt) (some Xv) none est true cv
      = ([], some (DhError.valueError "y_val is None")) :=
  ⟨rfl, rfl⟩

/-- Claim C10: `train_classifier` performs no null check on `estimator`: with
`estimator` null and all four data arguments non-null, the run passes the
argument-validation phase (no `ValueError`) and fails only later, inside the
`cross_val_score` call (cross-validation mode) or at the `fit` attribute
access (single-fit mode). -/
theorem train_classifier_no_estimator_check (env : SkEnv) (Xt : Features)
    (yt : Labels) (Xv : Features) (yv : Labels) (cv : Nat) :
    train_classifier env (some Xt) (some yt) (some Xv) (some yv) none true cv
      = ([], some (DhError.sklearnError "cross_val_score: estimator is None"))
    ∧ train_classifier env (some Xt) (some yt) (some Xv) (some yv) none false cv
      = ([], some (DhError.attributeError "fit")) :=
  ⟨rfl, rfl⟩

/-- Claim C4: module-level backend selection.  On `Darwin` the source calls
`plt.switch_backend()` with no argument, so the import aborts with a
`TypeError` instead of selecting an interactive backend; on every other
platform the headless `Agg` backend is selected and the module body
completes.  This refutes the claim that the import completes successfully in
both cases. -/
theorem moduleInit_darwin_fails :
    moduleInit "Darwin" = Except.error (DhError.typeError
      "switch_backend missing 1 required positional argument: newbackend")
    ∧ moduleInit "Linux" = Except.ok "Agg"
    ∧ moduleInit "Windows" = Except.ok "Agg" :=
  ⟨rfl, rfl, rfl⟩

/-- Claim C2: with an estimator exposing importance scores and a `col_name`
that is not a list (or a list of the wrong length), `feature_importance`
raises `NameError` for the undefined name `col_names` (the parameter is
`col_name`, the body reads `col_names`) instead of the claimed
`InvalidArgument` (`ValueError`); no figure is produced either way. -/
theorem feature_importance_badname_nameError :
    feature_importance (some estTwoImps) (PyArg.pyStr "ab")
      = ([], Except.error (DhError.nameError "col_names"))
    ∧ feature_importance (some estTwoImps) (PyArg.pyList ["a"])
      = ([], Except.error (DhError.nameError "col_names")) :=
  ⟨rfl, rfl⟩

/-- Claim C3: with importance scores `[0.1, 0.5, 0.4]` and the
matching-length name list `["a", "b", "c"]`, `feature_importance` raises
`NameError` for the undefined name `col_names` and never builds the table or
the figure; the table the unreachable continuation would build is indeed
`[("b", 0.5), ("c", 0.4), ("a", 0.1)]`. -/
theorem feature_importance_match_nameError :
    feature_importance (some estThreeImps) (PyArg.pyList ["a", "b", "c"])
      = ([], Except.error (DhError.nameError "col_names"))
    ∧ sortValuesDesc ((["a", "b", "c"]).zip [1/10, 1/2, 2/5])
      = [("b", 1/2), ("c", 2/5), ("a", 1/10)] :=
  ⟨rfl, by norm_num [sortValuesDesc, insertDesc]⟩

/-- Claim C6: for every estimator argument that does not expose the
`feature_importances_` attribute (including `None`), `feature_importance`
fails immediately with the `MissingCapability` (`ValueError`) error and emits
no effect: no table, no figure. -/
theorem feature_importance_missing_attr (est : Option EstimatorObj) (cn : PyArg)
    (h : hasFeatureImportances est = false) :
    feature_importance est cn
      = ([], Except.error (DhError.valueError
          "The estimator does not have a feature_importances_ attribute.")) := by
  simp [feature_importance, h]

/-- Witness for C6 at a concrete estimator lacking the attribute. -/
theorem feature_importance_missing_attr_witness :
    hasFeatureImportances (some estPlain) = false
    ∧ feature_importance (some estPlain) (PyArg.pyList ["a"])
      = ([], Except.error (DhError.valueError
          "The estimator does not have a feature_importances_ attribute.")) :=
  ⟨rfl, feature_importance_missing_attr (some estPlain) (PyArg.pyList ["a"]) rfl⟩

/-- Claim C7: for an estimator without `predict_proba`, single-fit mode
(`cross_validate = false`) completes (no error) after fitting, predicting and
printing the classification report and the confusion matrix, with no ROC
computation and no plot command. -/
theorem train_classifier_no_proba (env : SkEnv) (Xt : Features) (yt : Labels)
    (Xv : Features) (yv : Labels) (e : EstimatorObj) (cv : Nat)
    (h : e.predict_proba = none) :
    train_classifier env (some Xt) (some yt) (some Xv) (some yv) (some e) false cv
      = ([Effect.fitEstimator, Effect.predictCall,
          Effect.printLine (PrintedLine.classificationReport yv (e.predict Xv)),
          Effect.printLine (PrintedLine.confusionMatrix yv (e.predict Xv))], none)
    ∧ ((train_classifier env (some Xt) (some yt) (some Xv) (some yv) (some e) false cv).1.all
        fun ef => !ef.isPlot) = true := by
  have h1 : train_classifier env (some Xt) (some yt) (some Xv) (some yv) (some e) false cv
      = ([Effect.fitEstimator, Effect.predictCall,
          Effect.printLine (PrintedLine.classificationReport yv (e.predict Xv)),
          Effect.printLine (PrintedLine.confusionMatrix yv (e.predict Xv))], none) := by
    simp [train_classifier, h]
  exact ⟨h1, by rw [h1]; rfl⟩

/-- Witness for C7 at a concrete estimator lacking `predict_proba`. -/
theorem train_classifier_no_proba_witness :
    estPlain.predict_proba = none
    ∧ (train_classifier envW (some XtW) (some ytW) (some XtW) (some ytW) (some estPlain) false 5
        = ([Effect.fitEstimator, Effect.predictCall,
            Effect.printLine (PrintedLine.classificationReport ytW (estPlain.predict XtW)),
            Effect.printLine (PrintedLine.confusionMatrix ytW (estPlain.predict XtW))], none)
       ∧ ((train_classifier envW (some XtW) (some ytW) (some XtW) (some ytW) (some estPlain) false 5).1.all
            fun ef => !ef.isPlot) = true) :=
  ⟨rfl, train_classifier_no_proba envW XtW ytW XtW ytW estPlain 5 rfl⟩

/-- Claim C8: in cross-validation mode `train_classifier` raises no error and
its effects are cross-validation library calls and console prints only — no
plot, no estimator mutation; moreover no cross-validation run of
`train_classifier` (over any arguments) and no run of `feature_importance`
ever emits the `fit` mutation, so the only state mutation in the module is
the single-fit-mode `fit`. -/
theorem train_classifier_cv_frame (env : SkEnv) (Xt : Features) (yt : Labels)
    (Xv : Features) (yv : Labels) (e : EstimatorObj) (cv : Nat) :
    (train_classifier env (some Xt) (some yt) (some Xv) (some yv) (some e) true cv).2 = none
    ∧ ((train_classifier env (some Xt) (some yt) (some Xv) (some yv) (some e) true cv).1.all
        fun ef => !ef.isPlot && !ef.isMutation && (ef.isCvCall || ef.isPrint)) = true
    ∧ (∀ (Xa : Option Features) (ya : Option Labels) (Xb : Option Features)
        (yb : Option Labels) (est : Option EstimatorObj) (k : Nat),
        ((train_classifier env Xa ya Xb yb est true k).1.all
          fun ef => !ef.isMutation) = true)
    ∧ (∀ (est : Option EstimatorObj) (cn : PyArg),
        ((feature_importance est cn).1.all fun ef => !ef.isMutation) = true) := by
  refine ⟨rfl, rfl, ?_, ?_⟩
  · intro Xa ya Xb yb est k
    cases Xa <;> cases ya <;> cases Xb <;> cases yb <;> cases est <;> rfl
  · intro est cn
    match est with
    | none => rfl
    | some e2 =>
      cases h : e2.feature_importances_ <;>
        simp [feature_importance, hasFeatureImportances, h, lookupGlobal, moduleGlobals]

/-- Claim C1: with non-null arguments and `cross_validate = true`,
`train_classifier` runs, for each of the four fixed metrics in order
(Accuracy, F1-score, Precision, Recall), one `cross_val_score` call with `cv`
folds over `(X_train, y_train)` using that metric as `scoring`, and prints
the metric name with the mean and the population standard deviation of the
per-fold scores, both formatted to 4 decimal places.  The numpy hypotheses
say that the oracles `.mean()` and `.std()` compute the arithmetic mean and
the population (`ddof=0`) standard deviation on the score lists involved. -/
theorem train_classifier_cv_metrics (env : SkEnv) (Xt : Features) (yt : Labels)
    (Xv : Features) (yv : Labels) (e : EstimatorObj) (cv : Nat)
    (hMean : ∀ sc : ScorerFn, env.npMean (env.cross_val_score Xt yt sc cv)
      = listMean (env.cross_val_score Xt yt sc cv))
    (hStd : ∀ sc : ScorerFn, IsPopStd (env.npStd (env.cross_val_score Xt yt sc cv))
      (env.cross_val_score Xt yt sc cv)) :
    train_classifier env (some Xt) (some yt) (some Xv) (some yv) (some e) true cv
      = ([Effect.crossValScore Xt yt ScorerFn.accuracy_score cv,
          Effect.printLine (PrintedLine.cvMetric "Accuracy"
            (listMean (env.cross_val_score Xt yt ScorerFn.accuracy_score cv))
            (env.npStd (env.cross_val_score Xt yt ScorerFn.accuracy_score cv)) 4),
          Effect.crossValScore Xt yt ScorerFn.f1_score cv,
          Effect.printLine (PrintedLine.cvMetric "F1-score"
            (listMean (env.cross_val_score Xt yt ScorerFn.f1_score cv))
            (env.npStd (env.cross_val_score Xt yt ScorerFn.f1_score cv)) 4),
          Effect.crossValScore Xt yt ScorerFn.precision_score cv,
          Effect.printLine (PrintedLine.cvMetric "Precision"
            (listMean (env.cross_val_score Xt yt ScorerFn.precision_score cv))
            (env.npStd (env.cross_val_score Xt yt ScorerFn.precision_score cv)) 4),
          Effect.crossValScore Xt yt ScorerFn.recall_score cv,
          Effect.printLine (PrintedLine.cvMetric "Recall"
            (listMean (env.cross_val_score Xt yt ScorerFn.recall_score cv))
            (env.npStd (env.cross_val_score Xt yt ScorerFn.recall_score cv)) 4)], none)
    ∧ ∀ sc : ScorerFn, IsPopStd (env.npStd (env.cross_val_score Xt yt sc cv))
        (env.cross_val_score Xt yt sc cv) := by
  refine ⟨?_, hStd⟩
  simp [train_classifier, scorers, hMean]

/-- Witness for C1: a concrete environment whose cross-validations all score
`[1, 1]` per fold (mean `1`, population standard deviation `0`). -/
theorem train_classifier_cv_metrics_witness :
    (train_classifier envW (some XtW) (some ytW) (some XtW) (some ytW) (some estPlain) true 5).2 = none
    ∧ IsPopStd (envW.npStd (envW.cross_val_score XtW ytW ScorerFn.accuracy_score 5))
        (envW.cross_val_score XtW ytW ScorerFn.accuracy_score 5) := by
  have h := train_classifier_cv_metrics envW XtW ytW XtW ytW estPlain 5 (fun sc => rfl)
    (fun sc => by norm_num [IsPopStd, envW, popVar, listMean])
  exact ⟨by rw [h.1], h.2 ScorerFn.accuracy_score⟩

end DataHelp
